import Mathlib

/-!
Verification of the MCP bash server (`mcp_bash_server.py`): a shallow
embedding of its tool registry, tool resolver (`find_tool_executable`),
environment construction (`DEFAULT_ENV` plus the per-call PATH overlay),
and the `call_tool` operation dispatcher.

Modelling conventions:
* Paths and commands are plain strings; `Path a / b` becomes `a ++ "/" ++ b`.
* The ambient operating-system state (filesystem, process behaviour, the
  `which` lookup, the two HTTP probes) is a `World` of oracles, so that a
  theorem quantifying over `World` covers every outcome of the
  corresponding real I/O.
* Every I/O action the Python code performs is recorded in an explicit
  `Effect` trace returned next to the text results.  The resolver's
  internal read-only probes are recorded coarsely as one `resolverRun`
  marker (the resolver itself is modelled exactly as a pure function of
  the filesystem oracle).
* `Path.expanduser().resolve()` is modelled as the identity on abstract
  path names (`resolvePath`); no claim depends on path canonicalisation.
* Byte streams are modelled as the strings they decode to; the permissive
  `errors="replace"` decoding never fails, so decoding is the identity.
-/

/-- Translation of `Path.home() / "tools"` (line 23); the home directory
is the abstract path name `~`. -/
def TOOLS_DIR : String := "~/tools"

/-- Translation of `TOOLS_DIR / "web3se-lab"` (line 24). -/
def WEB3SE_LAB_DIR : String := TOOLS_DIR ++ "/web3se-lab"

/-- Helper for `pySplit`: split a character list on whitespace runs,
accumulating the current (reversed) word. -/
def wsSplitAux : List Char → List Char → List String
  | [], acc => if acc.isEmpty then [] else [String.mk acc.reverse]
  | c :: cs, acc =>
    if c.isWhitespace then
      if acc.isEmpty then wsSplitAux cs []
      else String.mk acc.reverse :: wsSplitAux cs []
    else wsSplitAux cs (c :: acc)

/-- Python `str.split()` (split on whitespace runs, dropping empties). -/
def pySplit (s : String) : List String := wsSplitAux s.data []

/-- Python `str.lower()` (per-character lowercasing). -/
def strToLower (s : String) : String := String.mk (s.data.map Char.toLower)

/-- Python `str.replace(".", "/")` as used on a module path (line 108). -/
def replaceDots (s : String) : String :=
  String.mk (s.data.map (fun c => if c = '.' then '/' else c))

/-- Python `str.strip()`: drop leading and trailing whitespace. -/
def pyStrip (s : String) : String :=
  String.mk (((s.data.dropWhile Char.isWhitespace).reverse.dropWhile
    Char.isWhitespace).reverse)

/-- Infix test on character lists, mirroring Python's substring `in`. -/
def charListContains (pat : List Char) : List Char → Bool
  | [] => pat.isEmpty
  | c :: rest => pat.isPrefixOf (c :: rest) || charListContains pat rest

/-- Python `pat in s` for strings (substring containment). -/
def strContainsSub (s pat : String) : Bool :=
  charListContains pat.data s.data

/-- The `"=" * 50` separator bar used in every execution report. -/
def eqBar : String := String.mk (List.replicate 50 '=')

/-- Environment mappings (`os.environ` and derived dicts). -/
abbrev EnvMap := String → Option String

/-- Python `env[k] = v` on a (copied) dict. -/
def envUpdate (e : EnvMap) (k v : String) : EnvMap :=
  fun k' => if k' = k then some v else e k'

/-- Python `env.get(k, d)`. -/
def envGetD (e : EnvMap) (k d : String) : String :=
  (e k).getD d

/-- The `DEFAULT_ENV` construction (lines 25-29): copy `os.environ`, prepend
`TOOLS_DIR` and `WEB3SE_LAB_DIR` to PATH, then set the two auxiliary
service endpoint variables from the original environment with fixed
loopback defaults. -/
def default_env (osEnv : EnvMap) : EnvMap :=
  let e1 := envUpdate osEnv "PATH"
    (TOOLS_DIR ++ ":" ++ WEB3SE_LAB_DIR ++ ":" ++ envGetD osEnv "PATH" "")
  let e2 := envUpdate e1 "SMARTBERT_API"
    (envGetD osEnv "SMARTBERT_API" "http://localhost:9900")
  envUpdate e2 "WEB3_SEKIT_API"
    (envGetD osEnv "WEB3_SEKIT_API" "http://localhost:8081")

/-- The per-call environment preparation (lines 282-286 and 440-444):
copy the environment and prepend `TOOLS_DIR` to PATH unless it already
occurs as a substring of the current PATH. -/
def call_env (env : EnvMap) : EnvMap :=
  let current_path := envGetD env "PATH" ""
  if strContainsSub current_path TOOLS_DIR then env
  else envUpdate env "PATH" (TOOLS_DIR ++ ":" ++ current_path)

/-- One entry of the registry literal `tool_configs` (lines 40-81). -/
structure ToolConfig where
  dir : String
  command : String
  description : String
deriving Repr, DecidableEq

/-- The registry literal `tool_configs` (lines 40-81), keyed by the
lowercased tool name. -/
def tool_configs : String → Option ToolConfig := fun n =>
  if n = "slither" then
    some ⟨TOOLS_DIR ++ "/slither", "python3 slither/slither.py",
      "Slither static analyzer"⟩
  else if n = "mythril" then
    some ⟨TOOLS_DIR ++ "/mythril2.0", "python3 mythril/mythril",
      "Mythril security analyzer"⟩
  else if n = "echidna" then
    some ⟨TOOLS_DIR ++ "/echidna", "echidna-test", "Echidna fuzzing tool"⟩
  else if n = "securify2" then
    some ⟨TOOLS_DIR ++ "/securify2", "python3 -m securify",
      "Securify2 static analyzer"⟩
  else if n = "securify" then
    some ⟨TOOLS_DIR ++ "/securify2", "python3 -m securify",
      "Securify2 static analyzer"⟩
  else if n = "medusa" then
    some ⟨TOOLS_DIR ++ "/medusa", "python3 -m medusa", "Medusa fuzzing tool"⟩
  else if n = "fuzz-utils" then
    some ⟨TOOLS_DIR ++ "/fuzz-utils", "python3 -m fuzz_utils", "Fuzz utilities"⟩
  else if n = "solc-select" then
    some ⟨TOOLS_DIR ++ "/solc-select", "solc-select",
      "Solidity compiler version selector"⟩
  else none

/-- Filesystem oracle: `Path.exists()`, `os.access(path, os.X_OK)` and
`Path.is_dir()` for every abstract path name. -/
structure FS where
  pathExists : String → Bool
  execOK : String → Bool
  isDir : String → Bool

/-- The dict returned by `find_tool_executable` (lines 110-131). -/
structure ToolInfo where
  command : String
  cwd : String
  description : String
deriving Repr, DecidableEq

/-- The Python-module launch check (lines 104-109): the invocation
template mentions `python3`, and the first token after the interpreter,
with dots turned into path separators, exists under the installation
directory either directly or as a package directory containing
`__init__.py`. -/
def module_launch_hit (fs : FS) (config : ToolConfig) : Bool :=
  strContainsSub config.command "python3" &&
    match (pySplit config.command).drop 1 with
    | [] => false
    | p :: _ =>
      let module_path := config.dir ++ "/" ++ replaceDots p
      fs.pathExists module_path || fs.pathExists (module_path ++ "/__init__.py")

/-- The ordered candidate-executable list `possible_paths` (lines 96-101). -/
def possible_paths (config : ToolConfig) (tool_name tool_name_lower : String) :
    List String :=
  [config.dir ++ "/" ++ tool_name,
   config.dir ++ "/" ++ tool_name_lower,
   config.dir ++ "/bin/" ++ tool_name,
   config.dir ++ "/bin/" ++ tool_name_lower]

/-- The direct-executable probe loop (lines 117-123): the first candidate
that exists and carries the OS executable permission. -/
def candidate_hit (fs : FS) (config : ToolConfig)
    (tool_name tool_name_lower : String) : Option String :=
  (possible_paths config tool_name tool_name_lower).find?
    (fun p => fs.pathExists p && fs.execOK p)

/-- The function `find_tool_executable` (lines 32-131): registry lookup on the
lowercased name, installation-directory existence gate, module-launch
check, candidate-executable probe, and the optimistic fallback returning
the literal template. -/
def find_tool_executable (fs : FS) (tool_name : String) : Option ToolInfo :=
  let tool_name_lower := strToLower tool_name
  match tool_configs tool_name_lower with
  | none => none
  | some config =>
    if fs.pathExists config.dir = false then none
    else if module_launch_hit fs config then
      some ⟨config.command, config.dir, config.description⟩
    else
      match candidate_hit fs config tool_name tool_name_lower with
      | some p => some ⟨p, config.dir, config.description⟩
      | none => some ⟨config.command, config.dir, config.description⟩

/-- A value in the argument bag of a request. -/
inductive ArgVal where
  | str (s : String)
  | int (n : Int)
  | bool (b : Bool)
deriving Repr, DecidableEq

/-- The argument bag: `arguments: Dict[str, Any]`; `none` means the key
is absent. -/
abbrev Args := String → Option ArgVal

/-- Python `arguments.get(k, d)` for a string-valued argument. -/
def argStr (a : Args) (k d : String) : String :=
  match a k with
  | some (.str s) => s
  | _ => d

/-- Python `arguments.get(k, d)` for an integer-valued argument. -/
def argInt (a : Args) (k : String) (d : Int) : Int :=
  match a k with
  | some (.int n) => n
  | _ => d

/-- Python `arguments.get(k, d)` for a boolean-valued argument. -/
def argBool (a : Args) (k : String) (d : Bool) : Bool :=
  match a k with
  | some (.bool b) => b
  | _ => d

/-- Replace one key of an argument bag. -/
def setArg (a : Args) (k : String) (v : ArgVal) : Args :=
  fun k' => if k' = k then some v else a k'

/-- Behaviour of one spawned subprocess, relative to the timeout under
which it is awaited: it completes in time with an exit code and two
decoded streams, it fails to complete in time (`hangs`, carrying
whatever partial streams the child produced before being killed), or
the spawn itself raises (`spawnFails`). -/
inductive ProcOutcome where
  | completes (exitCode : Int) (stdout stderr : String)
  | hangs (pOut pErr : String)
  | spawnFails (msg : String)
deriving Repr, DecidableEq

/-- Outcome of `subprocess.run(["which", tool_name], ...)` (lines
345-351): found with a (stripped) path, a nonzero exit, or a raised
exception (e.g. the 5-second timeout). -/
inductive WhichOutcome where
  | found (path : String)
  | notFound
  | fails (msg : String)
deriving Repr, DecidableEq

/-- Outcome of the SmartBERT HTTP probe (lines 626-634): reachable with
a JSON dict (optionally carrying a `model` field), reachable with
non-dict JSON, or any raised exception (connection failure, bad JSON). -/
inductive SmartbertOutcome where
  | reachDict (model : Option String)
  | reachNonDict
  | unreachable (msg : String)
deriving Repr, DecidableEq

/-- Outcome of the web3-sekit HTTP probe (lines 638-642). -/
inductive SekitOutcome where
  | reachable
  | unreachable
deriving Repr, DecidableEq

/-- The ambient state the server runs against: the filesystem, the base
process environment, and oracles for every external interaction. -/
structure World where
  fs : FS
  osEnv : EnvMap
  proc : String → String → ProcOutcome
  which : String → WhichOutcome
  smartbert : SmartbertOutcome
  sekit : SekitOutcome

/-- One I/O action performed by an operation.  `spawn` records the
command line, the working directory, and the PATH entry of the
environment handed to the child. -/
inductive Effect where
  | fsProbe (path : String)
  | resolverRun (tool : String)
  | spawn (cmd cwd pathEnv : String)
  | killProc
  | reapProc
  | runWhich (tool : String)
  | httpGet (url : String)
  | sleepSecs (n : Nat)
deriving Repr, DecidableEq

/-- Python `Path(p).expanduser().resolve()`: identity on abstract path
names. -/
def resolvePath (p : String) : String := p

/-- The success report of `execute_command` (lines 315-326). -/
def execReport (command work_dir : String) (code : Int) (out err : String) :
    String :=
  "Command: " ++ command ++ "\n" ++
  "Working Directory: " ++ work_dir ++ "\n" ++
  "Exit Code: " ++ toString code ++ "\n" ++
  eqBar ++ "\n" ++
  (if out ≠ "" then "STDOUT:\n" ++ out ++ "\n" else "") ++
  (if err ≠ "" then "STDERR:\n" ++ err ++ "\n" else "")

/-- The `execute_command` branch of `call_tool` (lines 261-332). -/
def execute_command_op (w : World) (args : Args) : List String × List Effect :=
  let command := argStr args "command" ""
  let working_dir := argStr args "working_directory" "."
  let timeout := argInt args "timeout" 300
  if command = "" then
    (["Error: No command provided"], [])
  else
    let work_dir := resolvePath working_dir
    if w.fs.pathExists work_dir = false then
      (["Error: Working directory does not exist: " ++ work_dir],
       [Effect.fsProbe work_dir])
    else
      let env := call_env (default_env w.osEnv)
      let pv := envGetD env "PATH" ""
      match w.proc command work_dir with
      | .spawnFails msg =>
        (["Error executing command: " ++ msg ++ "\nCommand: " ++ command],
         [Effect.fsProbe work_dir, Effect.spawn command work_dir pv])
      | .hangs _ _ =>
        (["Error: Command timed out after " ++ toString timeout ++
            " seconds\nCommand: " ++ command],
         [Effect.fsProbe work_dir, Effect.spawn command work_dir pv,
          Effect.killProc, Effect.reapProc])
      | .completes code out err =>
        ([execReport command work_dir code out err],
         [Effect.fsProbe work_dir, Effect.spawn command work_dir pv])

/-- The report printed when the resolver locates a tool for
`check_tool_available` (lines 363-371). -/
def ctaFoundReport (tool_name : String) (info : ToolInfo) : String :=
  "Tool '" ++ tool_name ++ "' found:\n" ++
  "  " ++ info.description ++ "\n" ++
  "  Command: " ++ info.command ++ "\n" ++
  "  Directory: " ++ info.cwd ++ "\n" ++
  "\nUsage example:\n" ++
  "  cd " ++ info.cwd ++ " && " ++ info.command ++ " <args>"

/-- The common tool directories probed by the `check_tool_available`
fallback loop (lines 374-379). -/
def ctaDirs (tool_name : String) : List String :=
  [TOOLS_DIR ++ "/" ++ tool_name,
   TOOLS_DIR ++ "/" ++ tool_name ++ "/" ++ tool_name,
   TOOLS_DIR ++ "/" ++ tool_name ++ "2.0/" ++ tool_name,
   WEB3SE_LAB_DIR ++ "/" ++ tool_name]

/-- The `check_tool_available` fallback loop (lines 381-389): in each
existing directory, the first of the two executable candidates that
exists and is executable. -/
def ctaSearch (fs : FS) (tool_name : String) : Option String :=
  ((ctaDirs tool_name).filter (fun d => fs.pathExists d && fs.isDir d)).findSome?
    (fun d => [d ++ "/" ++ tool_name, d ++ "/bin/" ++ tool_name].find?
      (fun p => fs.pathExists p && fs.execOK p))

/-- The `check_tool_available` branch of `call_tool` (lines 334-401).
The fallback loop's directory probes are recorded for all four
candidate directories (the Python loop short-circuits on a hit; the
trace over-approximates the probes, which no claim inspects). -/
def check_tool_available_op (w : World) (args : Args) :
    List String × List Effect :=
  let tool_name := argStr args "tool_name" ""
  if tool_name = "" then
    (["Error: No tool name provided"], [])
  else
    match w.which tool_name with
    | .fails msg =>
      (["Error checking tool: " ++ msg], [Effect.runWhich tool_name])
    | .found p =>
      (["Tool '" ++ tool_name ++ "' is available at: " ++ p],
       [Effect.runWhich tool_name])
    | .notFound =>
      match find_tool_executable w.fs tool_name with
      | some info =>
        ([ctaFoundReport tool_name info],
         [Effect.runWhich tool_name, Effect.resolverRun tool_name])
      | none =>
        let effs := [Effect.runWhich tool_name, Effect.resolverRun tool_name]
          ++ (ctaDirs tool_name).map Effect.fsProbe
        match ctaSearch w.fs tool_name with
        | some p =>
          (["Tool '" ++ tool_name ++ "' found in ~/tools at: " ++ p], effs)
        | none =>
          (["Tool '" ++ tool_name ++ "' not found in PATH or ~/tools.\n" ++
            "Available tools in ~/tools: echidna, fuzz-utils, medusa, " ++
            "mythril2.0, securify2, slither, solc-select"], effs)

/-- The tool-not-found report of `run_security_tool` (lines 422-428). -/
def toolNotFoundReport (tool_name : String) : String :=
  "Error: Tool '" ++ tool_name ++ "' not found.\n" ++
  "Supported tools: slither, mythril, echidna, securify2, medusa, " ++
  "fuzz-utils, solc-select\n" ++
  "Use 'check_tool_available' to find how to run a specific tool."

/-- The success report of `run_security_tool` (lines 474-486). -/
def securityReport (tool_name full_command exec_cwd : String) (code : Int)
    (out err : String) : String :=
  "Security Tool Execution: " ++ tool_name ++ "\n" ++
  "Command: " ++ full_command ++ "\n" ++
  "Working Directory: " ++ exec_cwd ++ "\n" ++
  "Exit Code: " ++ toString code ++ "\n" ++
  eqBar ++ "\n" ++
  (if out ≠ "" then "STDOUT:\n" ++ out ++ "\n" else "") ++
  (if err ≠ "" then "STDERR:\n" ++ err ++ "\n" else "")

/-- The `try` block of `run_security_tool` once a tool is resolved
(lines 430-494): build the command by plain concatenation, prefer the
tool's own directory as working directory when it exists, spawn, and
handle timeout and spawn failure. -/
def runTool (w : World) (info : ToolInfo)
    (tool_name tool_args working_dir : String) (timeout : Int)
    (effs0 : List Effect) : List String × List Effect :=
  let full_command := pyStrip (info.command ++ " " ++ tool_args)
  let work_dir := resolvePath working_dir
  let tool_cwd := resolvePath info.cwd
  let exec_cwd := if w.fs.pathExists tool_cwd then tool_cwd else work_dir
  let env := call_env (default_env w.osEnv)
  let pv := envGetD env "PATH" ""
  let effs := effs0 ++ [Effect.fsProbe tool_cwd]
  match w.proc full_command exec_cwd with
  | .spawnFails msg =>
    (["Error running security tool: " ++ msg ++ "\nTool: " ++ tool_name ++
        "\nArguments: " ++ tool_args],
     effs ++ [Effect.spawn full_command exec_cwd pv])
  | .hangs _ _ =>
    (["Error: Tool execution timed out after " ++ toString timeout ++
        " seconds\nTool: " ++ tool_name ++ "\nCommand: " ++ full_command],
     effs ++ [Effect.spawn full_command exec_cwd pv, Effect.killProc,
       Effect.reapProc])
  | .completes code out err =>
    ([securityReport tool_name full_command exec_cwd code out err],
     effs ++ [Effect.spawn full_command exec_cwd pv])

/-- The `run_security_tool` branch of `call_tool` (lines 403-494),
including the `securify` → `securify2` alias retry. -/
def run_security_tool_op (w : World) (args : Args) :
    List String × List Effect :=
  let tool_name := strToLower (argStr args "tool_name" "")
  let tool_args := argStr args "arguments" ""
  let working_dir := argStr args "working_directory" "."
  let timeout := argInt args "timeout" 300
  if tool_name = "" then
    (["Error: No tool name provided. Supported tools: slither, mythril, " ++
      "echidna, securify2, medusa, fuzz-utils, solc-select"], [])
  else
    match find_tool_executable w.fs tool_name with
    | some info =>
      runTool w info tool_name tool_args working_dir timeout
        [Effect.resolverRun tool_name]
    | none =>
      if tool_name = "securify" then
        match find_tool_executable w.fs "securify2" with
        | some info =>
          runTool w info tool_name tool_args working_dir timeout
            [Effect.resolverRun tool_name, Effect.resolverRun "securify2"]
        | none =>
          ([toolNotFoundReport tool_name],
           [Effect.resolverRun tool_name, Effect.resolverRun "securify2"])
      else
        ([toolNotFoundReport tool_name], [Effect.resolverRun tool_name])

/-- The success report of `web3_scanner_scan` (lines 553-565). -/
def scanReport (repo_path : String) (code : Int) (out err : String)
    (output_file : String) (outputSaved : Bool) : String :=
  "Web3 Scanner Results:\n" ++
  "Repository: " ++ repo_path ++ "\n" ++
  "Exit Code: " ++ toString code ++ "\n" ++
  eqBar ++ "\n" ++
  (if out ≠ "" then "STDOUT:\n" ++ out ++ "\n" else "") ++
  (if err ≠ "" then "STDERR:\n" ++ err ++ "\n" else "") ++
  (if output_file ≠ "" && outputSaved then
    "\n✅ Results saved to: " ++ output_file ++ "\n" else "")

/-- The command-line construction of `web3_scanner_scan` (lines
517-523): start from `[scanner, "scan", path]` and append `--intent`,
`--embed` and `--output <file>` in sequence under their conditions. -/
def scanCmdParts (web3_scanner repo_path : String)
    (with_intent with_embed : Bool) (output_file : String) : List String :=
  let cmd_parts0 := [web3_scanner, "scan", repo_path]
  let cmd_parts1 :=
    if with_intent then cmd_parts0 ++ ["--intent"] else cmd_parts0
  let cmd_parts2 :=
    if with_embed then cmd_parts1 ++ ["--embed"] else cmd_parts1
  if output_file ≠ "" then cmd_parts2 ++ ["--output", output_file]
  else cmd_parts2

/-- The `web3_scanner_scan` branch of `call_tool` (lines 496-573):
flag translation by sequential appends, execution in the web3se-lab
directory under `DEFAULT_ENV`, fixed 600-second deadline. -/
def web3_scanner_scan_op (w : World) (args : Args) :
    List String × List Effect :=
  let repo_path := argStr args "repository_path" ""
  let with_intent := argBool args "with_intent" true
  let with_embed := argBool args "with_embed" true
  let output_file := argStr args "output_file" ""
  if repo_path = "" then
    (["Error: No repository path provided"], [])
  else
    let web3_scanner := WEB3SE_LAB_DIR ++ "/web3-scanner"
    if w.fs.pathExists web3_scanner = false then
      (["Error: web3-scanner not found at " ++ web3_scanner],
       [Effect.fsProbe web3_scanner])
    else
      let command := String.intercalate " "
        (scanCmdParts web3_scanner repo_path with_intent with_embed
          output_file)
      let pv := envGetD (default_env w.osEnv) "PATH" ""
      match w.proc command WEB3SE_LAB_DIR with
      | .spawnFails msg =>
        (["Error running web3-scanner: " ++ msg ++ "\nRepository: " ++
            repo_path],
         [Effect.fsProbe web3_scanner,
          Effect.spawn command WEB3SE_LAB_DIR pv])
      | .hangs _ _ =>
        (["Error: Scan timed out after 10 minutes\nCommand: " ++ command],
         [Effect.fsProbe web3_scanner,
          Effect.spawn command WEB3SE_LAB_DIR pv, Effect.killProc,
          Effect.reapProc])
      | .completes code out err =>
        ([scanReport repo_path code out err output_file
            (w.fs.pathExists output_file)],
         [Effect.fsProbe web3_scanner,
          Effect.spawn command WEB3SE_LAB_DIR pv] ++
          (if output_file ≠ "" then [Effect.fsProbe output_file] else []))

/-- The `check_web3se_status` branch of `call_tool` (lines 620-660): two
independent short-timeout HTTP probes (each guarded by its own handler)
and one filesystem existence check, all three always reported. -/
def check_web3se_status_op (w : World) : List String × List Effect :=
  let smartbert_url :=
    envGetD (default_env w.osEnv) "SMARTBERT_API" "http://localhost:9900"
  let sb_lines :=
    match w.smartbert with
    | .reachDict m =>
      ["✅ SmartBERT API: Running at " ++ smartbert_url,
       "   Model: " ++ m.getD "unknown"]
    | .reachNonDict =>
      ["✅ SmartBERT API: Running at " ++ smartbert_url]
    | .unreachable msg =>
      ["❌ SmartBERT API: Not running at " ++ smartbert_url,
       "   Error: " ++ msg]
  let sekit_url :=
    envGetD (default_env w.osEnv) "WEB3_SEKIT_API" "http://localhost:8081"
  let sk_lines :=
    match w.sekit with
    | .reachable => ["✅ web3-sekit API: Running at " ++ sekit_url]
    | .unreachable => ["❌ web3-sekit API: Not running at " ++ sekit_url]
  let web3_scanner := WEB3SE_LAB_DIR ++ "/web3-scanner"
  let sc_line :=
    if w.fs.pathExists web3_scanner then
      "✅ web3-scanner CLI: Available at " ++ web3_scanner
    else
      "❌ web3-scanner CLI: Not found at " ++ web3_scanner
  (["web3se-lab Service Status:\n" ++
      String.intercalate "\n" (sb_lines ++ sk_lines ++ [sc_line])],
   [Effect.httpGet smartbert_url, Effect.httpGet sekit_url,
    Effect.fsProbe web3_scanner])

/-- The instructional text of the foreground `start_web3se_services`
branch (lines 603-612). -/
def startServicesInstructions : String :=
  "To start web3se-lab services, run:\n" ++
  "cd " ++ WEB3SE_LAB_DIR ++ " && ./web3-scanner start\n\n" ++
  "Or use: bash-server.execute_command with command: " ++
  "'cd " ++ WEB3SE_LAB_DIR ++ " && ./web3-scanner start'\n\n" ++
  "Services will run on:\n" ++
  "- SmartBERT API: http://localhost:9900\n" ++
  "- web3-sekit API: http://localhost:8081"

/-- The `start_web3se_services` branch of `call_tool` (lines 575-618).
In background mode the shell backgrounds the service and exits at once,
so a `hangs` outcome of the detaching shell is treated like completion
(the code has no timeout there); the inherited working directory of the
detached shell is recorded as `"."`. -/
def start_web3se_services_op (w : World) (args : Args) :
    List String × List Effect :=
  let background := argBool args "background" false
  let web3_scanner := WEB3SE_LAB_DIR ++ "/web3-scanner"
  if w.fs.pathExists web3_scanner = false then
    (["Error: web3-scanner not found at " ++ web3_scanner],
     [Effect.fsProbe web3_scanner])
  else if background then
    let cmd := "cd " ++ WEB3SE_LAB_DIR ++ " && nohup " ++ web3_scanner ++
      " start > /dev/null 2>&1 &"
    let pv := envGetD (default_env w.osEnv) "PATH" ""
    match w.proc cmd "." with
    | .spawnFails msg =>
      (["Error starting services: " ++ msg],
       [Effect.fsProbe web3_scanner, Effect.spawn cmd "." pv])
    | _ =>
      ((check_web3se_status_op w).1,
       [Effect.fsProbe web3_scanner, Effect.spawn cmd "." pv,
        Effect.reapProc, Effect.sleepSecs 5] ++ (check_web3se_status_op w).2)
  else
    ([startServicesInstructions], [Effect.fsProbe web3_scanner])

/-- The `call_tool` dispatcher (lines 257-666): route the named
operation, or report an unknown operation name. -/
def call_tool (w : World) (name : String) (args : Args) :
    List String × List Effect :=
  if name = "execute_command" then execute_command_op w args
  else if name = "check_tool_available" then check_tool_available_op w args
  else if name = "run_security_tool" then run_security_tool_op w args
  else if name = "web3_scanner_scan" then web3_scanner_scan_op w args
  else if name = "start_web3se_services" then start_web3se_services_op w args
  else if name = "check_web3se_status" then check_web3se_status_op w
  else (["Unknown tool: " ++ name], [])

/-! ## Helper lemmas -/

theorem isPrefixOf_append_self (l t : List Char) :
    l.isPrefixOf (l ++ t) = true := by
  induction l with
  | nil => simp [List.isPrefixOf]
  | cons a as ih => simp [List.isPrefixOf, List.cons_append, ih]

theorem charListContains_self_append (l t : List Char) :
    charListContains l (l ++ t) = true := by
  cases l with
  | nil =>
    cases t with
    | nil => rfl
    | cons c cs => simp [charListContains, List.isPrefixOf]
  | cons a as =>
    show charListContains (a :: as) (a :: (as ++ t)) = true
    rw [charListContains]
    have h := isPrefixOf_append_self (a :: as) t
    rw [List.cons_append] at h
    rw [h, Bool.true_or]

theorem strContainsSub_append_self (p r : String) :
    strContainsSub (p ++ r) p = true := by
  show charListContains p.data (p ++ r).data = true
  rw [String.data_append]
  exact charListContains_self_append p.data r.data

theorem prefix_or_prefix_of_append_eq :
    ∀ (p q x y : List Char), p ++ x = q ++ y → p <+: q ∨ q <+: p
  | [], q, _, _, _ => Or.inl ⟨q, rfl⟩
  | p, [], _, _, _ => Or.inr ⟨p, rfl⟩
  | a :: as, b :: bs, x, y, h => by
    rw [List.cons_append, List.cons_append] at h
    have hab : a = b := (List.cons.injEq _ _ _ _ ▸ h).1
    have ht : as ++ x = bs ++ y := (List.cons.injEq _ _ _ _ ▸ h).2
    cases prefix_or_prefix_of_append_eq as bs x y ht with
    | inl hp =>
      obtain ⟨t, htt⟩ := hp
      exact Or.inl ⟨t, by rw [List.cons_append, htt, hab]⟩
    | inr hp =>
      obtain ⟨t, htt⟩ := hp
      exact Or.inr ⟨t, by rw [List.cons_append, htt, hab]⟩

theorem isPrefixOf_complete :
    ∀ (l₁ l₂ : List Char), l₁ <+: l₂ → l₁.isPrefixOf l₂ = true
  | [], l, _ => by simp [List.isPrefixOf]
  | a :: as, [], h => absurd (List.eq_nil_of_prefix_nil h) (by simp)
  | a :: as, b :: bs, h => by
    rw [List.cons_prefix_cons] at h
    simp [List.isPrefixOf, h.1, isPrefixOf_complete as bs h.2]

/-- Two strings built on incomparable literal stems are never equal. -/
theorem append_ne_of_not_prefixes (p q x y : String)
    (hp : p.data.isPrefixOf q.data = false)
    (hq : q.data.isPrefixOf p.data = false) :
    p ++ x ≠ q ++ y := by
  intro he
  have hd : p.data ++ x.data = q.data ++ y.data := by
    have h := congrArg String.data he
    rwa [String.data_append, String.data_append] at h
  cases prefix_or_prefix_of_append_eq _ _ _ _ hd with
  | inl h => rw [isPrefixOf_complete _ _ h] at hp; cases hp
  | inr h => rw [isPrefixOf_complete _ _ h] at hq; cases hq

/-- A successful resolution always carries an installation directory that
exists on disk (the resolver's directory gate, lines 90-92). -/
theorem find_tool_executable_cwd_exists (fs : FS) (n : String)
    (info : ToolInfo) (h : find_tool_executable fs n = some info) :
    fs.pathExists info.cwd = true := by
  cases hc : tool_configs (strToLower n) with
  | none => simp [find_tool_executable, hc] at h
  | some c =>
    cases hd : fs.pathExists c.dir with
    | false => simp [find_tool_executable, hc, hd] at h
    | true =>
      have hcwd : info.cwd = c.dir := by
        cases hm : module_launch_hit fs c with
        | true =>
          simp [find_tool_executable, hc, hd, hm] at h
          rw [← h]
        | false =>
          cases hcd : candidate_hit fs c n (strToLower n) with
          | some p =>
            simp [find_tool_executable, hc, hd, hm, hcd] at h
            rw [← h]
          | none =>
            simp [find_tool_executable, hc, hd, hm, hcd] at h
            rw [← h]
      rw [hcwd]; exact hd

/-! ## C2: resolver NotFound characterisation, working directory,
and optimistic fallback -/

/-- C2: `find_tool_executable` returns `none` exactly when the lowercased
name is not a registry key or the registry's installation directory does
not exist; whenever the name is a key and the directory exists it returns
a resolved invocation whose working directory is the installation
directory; and when neither the module-launch check nor any candidate
executable matches, the result is the registry's literal invocation
template. -/
theorem resolver_notFound_iff_cwd_and_fallback (fs : FS) (n : String) :
    (find_tool_executable fs n = none ↔
      tool_configs (strToLower n) = none ∨
        ∃ c, tool_configs (strToLower n) = some c ∧
          fs.pathExists c.dir = false)
    ∧ (∀ c, tool_configs (strToLower n) = some c →
        fs.pathExists c.dir = true →
        ∃ i, find_tool_executable fs n = some i ∧ i.cwd = c.dir)
    ∧ (∀ c, tool_configs (strToLower n) = some c →
        fs.pathExists c.dir = true →
        module_launch_hit fs c = false →
        candidate_hit fs c n (strToLower n) = none →
        find_tool_executable fs n = some ⟨c.command, c.dir, c.description⟩) := by
  refine ⟨?_, ?_, ?_⟩
  · cases hc : tool_configs (strToLower n) with
    | none => simp [find_tool_executable, hc]
    | some c =>
      cases hd : fs.pathExists c.dir with
      | false => simp [find_tool_executable, hc, hd]
      | true =>
        cases hm : module_launch_hit fs c with
        | true => simp [find_tool_executable, hc, hd, hm]
        | false =>
          cases hcd : candidate_hit fs c n (strToLower n) with
          | some p => simp [find_tool_executable, hc, hd, hm, hcd]
          | none => simp [find_tool_executable, hc, hd, hm, hcd]
  · intro c hc hd
    cases hm : module_launch_hit fs c with
    | true =>
      exact ⟨⟨c.command, c.dir, c.description⟩,
        by simp [find_tool_executable, hc, hd, hm], rfl⟩
    | false =>
      cases hcd : candidate_hit fs c n (strToLower n) with
      | some p =>
        exact ⟨⟨p, c.dir, c.description⟩,
          by simp [find_tool_executable, hc, hd, hm, hcd], rfl⟩
      | none =>
        exact ⟨⟨c.command, c.dir, c.description⟩,
          by simp [find_tool_executable, hc, hd, hm, hcd], rfl⟩
  · intro c hc hd hm hcd
    simp [find_tool_executable, hc, hd, hm, hcd]

/-- Filesystem in which no path exists at all. -/
def fsEmpty : FS := ⟨fun _ => false, fun _ => false, fun _ => false⟩

/-- Filesystem in which exactly the slither installation directory
exists (and nothing inside it). -/
def fsBareSlither : FS :=
  ⟨fun p => p == TOOLS_DIR ++ "/slither", fun _ => false, fun _ => false⟩

theorem resolver_notFound_iff_cwd_and_fallback_witness :
    find_tool_executable fsEmpty "slither" = none
    ∧ (∃ i, find_tool_executable fsBareSlither "slither" = some i ∧
        i.cwd = TOOLS_DIR ++ "/slither")
    ∧ find_tool_executable fsBareSlither "slither" =
        some ⟨"python3 slither/slither.py", TOOLS_DIR ++ "/slither",
          "Slither static analyzer"⟩ := by
  refine ⟨?_, ?_, ?_⟩
  · exact (resolver_notFound_iff_cwd_and_fallback fsEmpty "slither").1.mpr
      (Or.inr ⟨_, rfl, rfl⟩)
  · exact (resolver_notFound_iff_cwd_and_fallback fsBareSlither "slither").2.1
      _ rfl (by decide)
  · exact (resolver_notFound_iff_cwd_and_fallback fsBareSlither "slither").2.2
      _ rfl (by decide) (by decide) (by decide)

/-! ## C5: module-style launch -/

/-- C5: for a registry entry whose template indicates a module-style
launch (it invokes the Python interpreter), when the template's module
token, translated to a filesystem path under the installation directory
(dots becoming path separators), exists — directly or as a package
directory containing `__init__.py` — the resolver returns the template
invocation unchanged with working directory equal to the installation
directory. -/
theorem module_launch_returns_template (fs : FS) (n : String)
    (c : ToolConfig) (p : String) (rest : List String)
    (hc : tool_configs (strToLower n) = some c)
    (hd : fs.pathExists c.dir = true)
    (hpy : strContainsSub c.command "python3" = true)
    (hparts : (pySplit c.command).drop 1 = p :: rest)
    (hpath : (fs.pathExists (c.dir ++ "/" ++ replaceDots p) ||
      fs.pathExists (c.dir ++ "/" ++ replaceDots p ++ "/__init__.py")) = true) :
    find_tool_executable fs n = some ⟨c.command, c.dir, c.description⟩ := by
  have hm : module_launch_hit fs c = true := by
    rw [module_launch_hit, hpy, Bool.true_and, hparts]
    exact hpath
  simp [find_tool_executable, hc, hd, hm]

/-- Filesystem in which the mythril installation directory and the
translated module path `mythril/mythril` exist. -/
def fsMythril : FS :=
  ⟨fun p => p == TOOLS_DIR ++ "/mythril2.0" ||
    p == TOOLS_DIR ++ "/mythril2.0/mythril/mythril",
   fun _ => false, fun _ => false⟩

theorem module_launch_returns_template_witness :
    find_tool_executable fsMythril "mythril" =
      some ⟨"python3 mythril/mythril", TOOLS_DIR ++ "/mythril2.0",
        "Mythril security analyzer"⟩ :=
  module_launch_returns_template fsMythril "mythril"
    ⟨TOOLS_DIR ++ "/mythril2.0", "python3 mythril/mythril",
      "Mythril security analyzer"⟩
    "mythril/mythril" [] rfl (by decide) (by decide) (by decide) (by decide)

/-! ## C10: the candidate probe accepts directories -/

/-- Filesystem in which `~/tools/slither/slither` is a directory with
the executable permission bit set (as for slither's inner package
directory): it exists, is a directory, and passes `os.access(X_OK)`. -/
def fsDirSlither : FS :=
  ⟨fun p => p == TOOLS_DIR ++ "/slither" ||
     p == TOOLS_DIR ++ "/slither/slither",
   fun p => p == TOOLS_DIR ++ "/slither/slither",
   fun p => p == TOOLS_DIR ++ "/slither" ||
     p == TOOLS_DIR ++ "/slither/slither"⟩

/-- C10: the candidate-executable probe accepts any path that exists and
carries the OS executable permission, directories included: there is a
filesystem state in which `find_tool_executable` returns the path of a
directory as the command. -/
theorem resolver_can_return_directory :
    ∃ (fs : FS) (i : ToolInfo),
      find_tool_executable fs "slither" = some i
      ∧ candidate_hit fs
          ⟨TOOLS_DIR ++ "/slither", "python3 slither/slither.py",
            "Slither static analyzer"⟩ "slither" "slither" = some i.command
      ∧ fs.pathExists i.command = true
      ∧ fs.execOK i.command = true
      ∧ fs.isDir i.command = true :=
  ⟨fsDirSlither,
   ⟨TOOLS_DIR ++ "/slither/slither", TOOLS_DIR ++ "/slither",
     "Slither static analyzer"⟩,
   by decide, by decide, by decide, by decide, by decide⟩

/-! ## C6: environment construction -/

theorem default_env_PATH (osEnv : EnvMap) :
    default_env osEnv "PATH" =
      some (TOOLS_DIR ++ ":" ++ WEB3SE_LAB_DIR ++ ":" ++
        envGetD osEnv "PATH" "") := by
  simp [default_env, envUpdate]

theorem default_env_getD_PATH (osEnv : EnvMap) :
    envGetD (default_env osEnv) "PATH" "" =
      TOOLS_DIR ++ ":" ++ WEB3SE_LAB_DIR ++ ":" ++ envGetD osEnv "PATH" "" := by
  rw [envGetD, default_env_PATH]; rfl

theorem strContainsSub_defaultPATH (osEnv : EnvMap) :
    strContainsSub (envGetD (default_env osEnv) "PATH" "") TOOLS_DIR = true := by
  rw [default_env_getD_PATH]
  have h := strContainsSub_append_self TOOLS_DIR
    (":" ++ WEB3SE_LAB_DIR ++ ":" ++ envGetD osEnv "PATH" "")
  rw [show TOOLS_DIR ++ (":" ++ WEB3SE_LAB_DIR ++ ":" ++ envGetD osEnv "PATH" "")
      = TOOLS_DIR ++ ":" ++ WEB3SE_LAB_DIR ++ ":" ++ envGetD osEnv "PATH" "" by
    simp [String.append_assoc]] at h
  exact h

/-- The per-call PATH overlay is the identity on `DEFAULT_ENV`: the
tools root is already a prefix of its PATH. -/
theorem call_env_default (osEnv : EnvMap) :
    call_env (default_env osEnv) = default_env osEnv := by
  rw [call_env]
  simp only [strContainsSub_defaultPATH osEnv, if_true]

/-- The per-call PATH overlay is idempotent on every environment. -/
theorem call_env_idem (env : EnvMap) :
    call_env (call_env env) = call_env env := by
  cases hc : strContainsSub (envGetD env "PATH" "") TOOLS_DIR with
  | true => simp [call_env, hc]
  | false =>
    have h2 : strContainsSub (TOOLS_DIR ++ ":" ++ envGetD env "PATH" "")
        TOOLS_DIR = true := by
      have h := strContainsSub_append_self TOOLS_DIR
        (":" ++ envGetD env "PATH" "")
      rw [show TOOLS_DIR ++ (":" ++ envGetD env "PATH" "") =
          TOOLS_DIR ++ ":" ++ envGetD env "PATH" "" by
        simp [String.append_assoc]] at h
      exact h
    have hc' : strContainsSub ((env "PATH").getD "") TOOLS_DIR = false := hc
    have h2' : strContainsSub (TOOLS_DIR ++ ":" ++ (env "PATH").getD "")
        TOOLS_DIR = true := h2
    simp [call_env, envGetD, envUpdate, hc', h2']

theorem execute_command_op_spawn_path (w : World) (args : Args)
    (c d p : String) (h : Effect.spawn c d p ∈ (execute_command_op w args).2) :
    p = envGetD (default_env w.osEnv) "PATH" "" := by
  rw [← call_env_default w.osEnv]
  simp only [execute_command_op] at h
  split at h
  · simp at h
  · split at h
    · simp at h
    · split at h <;> simp at h <;> exact h.2.2

theorem runTool_spawn_path (w : World) (info : ToolInfo)
    (tn ta wd : String) (t : Int) (effs0 : List Effect) (c d p : String)
    (h0 : ∀ c' d' p', Effect.spawn c' d' p' ∉ effs0)
    (h : Effect.spawn c d p ∈ (runTool w info tn ta wd t effs0).2) :
    p = envGetD (default_env w.osEnv) "PATH" "" := by
  rw [← call_env_default w.osEnv]
  simp only [runTool] at h
  split at h <;> simp at h <;>
    rcases h with h | h <;> first
      | exact absurd h (h0 _ _ _)
      | exact h.2.2

theorem run_security_tool_op_spawn_path (w : World) (args : Args)
    (c d p : String)
    (h : Effect.spawn c d p ∈ (run_security_tool_op w args).2) :
    p = envGetD (default_env w.osEnv) "PATH" "" := by
  simp only [run_security_tool_op] at h
  split at h
  · simp at h
  · split at h
    · exact runTool_spawn_path w _ _ _ _ _ _ c d p (by simp) h
    · split at h
      · split at h
        · exact runTool_spawn_path w _ _ _ _ _ _ c d p (by simp) h
        · simp at h
      · simp at h

theorem web3_scanner_scan_op_spawn_path (w : World) (args : Args)
    (c d p : String)
    (h : Effect.spawn c d p ∈ (web3_scanner_scan_op w args).2) :
    p = envGetD (default_env w.osEnv) "PATH" "" := by
  simp only [web3_scanner_scan_op] at h
  split at h
  · simp at h
  · split at h
    · simp at h
    · split at h
      · simp at h; exact h.2.2
      · simp at h; exact h.2.2
      · split at h <;> simp at h <;> exact h.2.2

theorem check_tool_available_op_no_spawn (w : World) (args : Args)
    (c d p : String) :
    Effect.spawn c d p ∉ (check_tool_available_op w args).2 := by
  intro h
  simp only [check_tool_available_op] at h
  split at h
  · simp at h
  · split at h
    · simp at h
    · simp at h
    · split at h
      · simp at h
      · split at h <;> simp [ctaDirs] at h

theorem check_web3se_status_op_no_spawn (w : World) (c d p : String) :
    Effect.spawn c d p ∉ (check_web3se_status_op w).2 := by
  intro h
  simp [check_web3se_status_op] at h

theorem start_web3se_services_op_spawn_path (w : World) (args : Args)
    (c d p : String)
    (h : Effect.spawn c d p ∈ (start_web3se_services_op w args).2) :
    p = envGetD (default_env w.osEnv) "PATH" "" := by
  simp only [start_web3se_services_op] at h
  split at h
  · simp at h
  · split at h
    · split at h
      · simp at h; exact h.2.2
      · simp at h
        rcases h with h | h
        · exact h.2.2
        · exact absurd h (check_web3se_status_op_no_spawn w c d p)
    · simp at h

theorem call_tool_spawn_path (w : World) (nm : String) (args : Args)
    (c d p : String) (h : Effect.spawn c d p ∈ (call_tool w nm args).2) :
    p = envGetD (default_env w.osEnv) "PATH" "" := by
  simp only [call_tool] at h
  split at h
  · exact execute_command_op_spawn_path w args c d p h
  · split at h
    · exact absurd h (check_tool_available_op_no_spawn w args c d p)
    · split at h
      · exact run_security_tool_op_spawn_path w args c d p h
      · split at h
        · exact web3_scanner_scan_op_spawn_path w args c d p h
        · split at h
          · exact start_web3se_services_op_spawn_path w args c d p h
          · split at h
            · exact absurd h (check_web3se_status_op_no_spawn w c d p)
            · simp at h

/-- C6: the environment of every execution is the base process
environment overlaid with the two fixed auxiliary-service endpoint
variables and a PATH whose prefix contains the tools root; the per-call
PATH overlay adds nothing to `DEFAULT_ENV` (the prefix is already
present) and applying the overlay twice in sequence never duplicates
the tools-root prefix; and every spawned process receives exactly the
PATH of this environment. -/
theorem env_overlay_and_spawned_path :
    (∀ osEnv : EnvMap, call_env (default_env osEnv) = default_env osEnv)
    ∧ (∀ (osEnv : EnvMap) (k : String), k ≠ "PATH" → k ≠ "SMARTBERT_API" →
        k ≠ "WEB3_SEKIT_API" → default_env osEnv k = osEnv k)
    ∧ (∀ osEnv : EnvMap, default_env osEnv "SMARTBERT_API" =
        some (envGetD osEnv "SMARTBERT_API" "http://localhost:9900"))
    ∧ (∀ osEnv : EnvMap, default_env osEnv "WEB3_SEKIT_API" =
        some (envGetD osEnv "WEB3_SEKIT_API" "http://localhost:8081"))
    ∧ (∀ osEnv : EnvMap, ∃ rest : String,
        default_env osEnv "PATH" = some (TOOLS_DIR ++ ":" ++ rest))
    ∧ (∀ env : EnvMap, call_env (call_env env) = call_env env)
    ∧ (∀ (w : World) (nm : String) (args : Args) (c d p : String),
        Effect.spawn c d p ∈ (call_tool w nm args).2 →
        p = envGetD (default_env w.osEnv) "PATH" "") := by
  refine ⟨call_env_default, ?_, ?_, ?_, ?_, call_env_idem, call_tool_spawn_path⟩
  · intro osEnv k h1 h2 h3
    simp [default_env, envUpdate, h1, h2, h3]
  · intro osEnv
    simp [default_env, envUpdate]
  · intro osEnv
    simp [default_env, envUpdate]
  · intro osEnv
    refine ⟨WEB3SE_LAB_DIR ++ ":" ++ envGetD osEnv "PATH" "", ?_⟩
    rw [default_env_PATH]
    simp [String.append_assoc]

/-- The empty base environment. -/
def emptyEnv : EnvMap := fun _ => none

/-- An all-permissive world used to exercise concrete executions. -/
def worldPermissive : World :=
  { fs := ⟨fun _ => true, fun _ => true, fun _ => true⟩
    osEnv := emptyEnv
    proc := fun _ _ => .completes 0 "" ""
    which := fun _ => .notFound
    smartbert := .unreachable "connection refused"
    sekit := .unreachable }

/-- Arguments carrying only a command line. -/
def argsEcho : Args :=
  fun k => if k = "command" then some (.str "echo hello") else none

theorem env_overlay_and_spawned_path_witness :
    default_env emptyEnv "HOME" = none
    ∧ default_env emptyEnv "SMARTBERT_API" = some "http://localhost:9900"
    ∧ (∃ rest : String,
        default_env emptyEnv "PATH" = some (TOOLS_DIR ++ ":" ++ rest))
    ∧ "~/tools:~/tools/web3se-lab:" = envGetD (default_env emptyEnv) "PATH" "" := by
  refine ⟨?_, ?_, env_overlay_and_spawned_path.2.2.2.2.1 emptyEnv, ?_⟩
  · exact (env_overlay_and_spawned_path.2.1 emptyEnv "HOME"
      (by decide) (by decide) (by decide)).trans rfl
  · exact (env_overlay_and_spawned_path.2.2.1 emptyEnv).trans rfl
  · exact env_overlay_and_spawned_path.2.2.2.2.2.2 worldPermissive
      "execute_command" argsEcho "echo hello" "."
      "~/tools:~/tools/web3se-lab:" (by decide)

/-! ## C3: totality of the dispatcher -/

theorem execute_command_op_singleton (w : World) (args : Args) :
    ∃ t, (execute_command_op w args).1 = [t] := by
  simp only [execute_command_op]
  repeat' split
  all_goals exact ⟨_, rfl⟩

theorem runTool_singleton (w : World) (info : ToolInfo)
    (tn ta wd : String) (t : Int) (effs0 : List Effect) :
    ∃ u, (runTool w info tn ta wd t effs0).1 = [u] := by
  simp only [runTool]
  repeat' split
  all_goals exact ⟨_, rfl⟩

theorem run_security_tool_op_singleton (w : World) (args : Args) :
    ∃ t, (run_security_tool_op w args).1 = [t] := by
  simp only [run_security_tool_op]
  repeat' split
  all_goals first
    | exact ⟨_, rfl⟩
    | apply runTool_singleton

theorem check_tool_available_op_singleton (w : World) (args : Args) :
    ∃ t, (check_tool_available_op w args).1 = [t] := by
  simp only [check_tool_available_op]
  repeat' split
  all_goals exact ⟨_, rfl⟩

theorem web3_scanner_scan_op_singleton (w : World) (args : Args) :
    ∃ t, (web3_scanner_scan_op w args).1 = [t] := by
  simp only [web3_scanner_scan_op]
  repeat' split
  all_goals exact ⟨_, rfl⟩

theorem check_web3se_status_op_singleton (w : World) :
    ∃ t, (check_web3se_status_op w).1 = [t] :=
  ⟨_, rfl⟩

theorem start_web3se_services_op_singleton (w : World) (args : Args) :
    ∃ t, (start_web3se_services_op w args).1 = [t] := by
  simp only [start_web3se_services_op]
  repeat' split
  all_goals exact ⟨_, rfl⟩

/-- C3: for every operation name and every argument bag — over all
filesystem states, process behaviours (spawn failures included), `which`
outcomes and probe outcomes — `call_tool` returns exactly one text
result and never lets a failure escape; in particular a spawn failure in
`execute_command` and a raised `which` lookup in `check_tool_available`
are converted into result-shaped text reports. -/
theorem call_tool_total_and_failure_reports :
    (∀ (w : World) (name : String) (args : Args),
      ∃ t, (call_tool w name args).1 = [t])
    ∧ (∀ (w : World) (args : Args) (msg : String),
        argStr args "command" "" ≠ "" →
        w.fs.pathExists (argStr args "working_directory" ".") = true →
        w.proc (argStr args "command" "")
          (argStr args "working_directory" ".") = .spawnFails msg →
        (call_tool w "execute_command" args).1 =
          ["Error executing command: " ++ msg ++ "\nCommand: " ++
            argStr args "command" ""])
    ∧ (∀ (w : World) (args : Args) (msg : String),
        argStr args "tool_name" "" ≠ "" →
        w.which (argStr args "tool_name" "") = .fails msg →
        (call_tool w "check_tool_available" args).1 =
          ["Error checking tool: " ++ msg]) := by
  refine ⟨?_, ?_, ?_⟩
  · intro w name args
    simp only [call_tool]
    repeat' split
    · exact execute_command_op_singleton w args
    · exact check_tool_available_op_singleton w args
    · exact run_security_tool_op_singleton w args
    · exact web3_scanner_scan_op_singleton w args
    · exact start_web3se_services_op_singleton w args
    · exact check_web3se_status_op_singleton w
    · exact ⟨_, rfl⟩
  · intro w args msg h1 h2 h3
    have e : call_tool w "execute_command" args = execute_command_op w args :=
      rfl
    rw [e]
    simp [execute_command_op, resolvePath, h1, h2, h3]
  · intro w args msg h1 h2
    have e : call_tool w "check_tool_available" args =
        check_tool_available_op w args := rfl
    rw [e]
    simp [check_tool_available_op, h1, h2]

/-- A world whose every spawn raises. -/
def worldSpawnFail : World :=
  { fs := ⟨fun _ => true, fun _ => true, fun _ => true⟩
    osEnv := emptyEnv
    proc := fun _ _ => .spawnFails "OSError: boom"
    which := fun _ => .fails "TimeoutExpired"
    smartbert := .unreachable "connection refused"
    sekit := .unreachable }

/-- Arguments naming a tool to look up. -/
def argsToolForge : Args :=
  fun k => if k = "tool_name" then some (.str "forge") else none

theorem call_tool_total_and_failure_reports_witness :
    (∃ t, (call_tool worldSpawnFail "no_such_operation" (fun _ => none)).1 = [t])
    ∧ (call_tool worldSpawnFail "execute_command" argsEcho).1 =
        ["Error executing command: OSError: boom\nCommand: echo hello"]
    ∧ (call_tool worldSpawnFail "check_tool_available" argsToolForge).1 =
        ["Error checking tool: TimeoutExpired"] := by
  refine ⟨call_tool_total_and_failure_reports.1 worldSpawnFail
    "no_such_operation" (fun _ => none), ?_, ?_⟩
  · have h := call_tool_total_and_failure_reports.2.1 worldSpawnFail argsEcho
      "OSError: boom" (by decide) (by decide) (by decide)
    exact h.trans (by decide)
  · exact call_tool_total_and_failure_reports.2.2 worldSpawnFail argsToolForge
      "TimeoutExpired" (by decide) (by decide)

/-! ## C4: required-argument checks -/

/-- C4 (amended): for the required argument each operation actually
checks — `command` for `execute_command`, `tool_name` for
`run_security_tool` and `check_tool_available`, `repository_path` for
`web3_scanner_scan` — absence yields a text error with an empty effect
trace: no filesystem probe, no subprocess spawn, no network request.
(The `arguments` argument of `run_security_tool`, although declared
required in the operation schema, is not checked: see the
counterexample.) -/
theorem missing_checked_arg_aborts (w : World) (args : Args) :
    (args "command" = none →
      call_tool w "execute_command" args =
        (["Error: No command provided"], []))
    ∧ (args "tool_name" = none →
      call_tool w "run_security_tool" args =
        (["Error: No tool name provided. Supported tools: slither, mythril, " ++
          "echidna, securify2, medusa, fuzz-utils, solc-select"], []))
    ∧ (args "tool_name" = none →
      call_tool w "check_tool_available" args =
        (["Error: No tool name provided"], []))
    ∧ (args "repository_path" = none →
      call_tool w "web3_scanner_scan" args =
        (["Error: No repository path provided"], [])) := by
  refine ⟨?_, ?_, ?_, ?_⟩
  · intro h
    have e : call_tool w "execute_command" args = execute_command_op w args :=
      rfl
    rw [e]
    simp [execute_command_op, argStr, h]
  · intro h
    have e : call_tool w "run_security_tool" args =
        run_security_tool_op w args := rfl
    rw [e]
    have hl : strToLower "" = "" := rfl
    simp [run_security_tool_op, argStr, h, hl]
  · intro h
    have e : call_tool w "check_tool_available" args =
        check_tool_available_op w args := rfl
    rw [e]
    simp [check_tool_available_op, argStr, h]
  · intro h
    have e : call_tool w "web3_scanner_scan" args =
        web3_scanner_scan_op w args := rfl
    rw [e]
    simp [web3_scanner_scan_op, argStr, h]

theorem missing_checked_arg_aborts_witness :
    call_tool worldPermissive "execute_command" (fun _ => none) =
      (["Error: No command provided"], [])
    ∧ call_tool worldPermissive "web3_scanner_scan" (fun _ => none) =
      (["Error: No repository path provided"], []) :=
  ⟨(missing_checked_arg_aborts worldPermissive (fun _ => none)).1 rfl,
   (missing_checked_arg_aborts worldPermissive
      (fun _ => none)).2.2.2 rfl⟩

/-- Filesystem in which only the slither installation directory exists. -/
def fsOnlySlitherDir : FS :=
  ⟨fun p => p == TOOLS_DIR ++ "/slither", fun _ => false, fun _ => false⟩

/-- A world in which every spawned process completes at once. -/
def worldQuickProc : World :=
  { fs := fsOnlySlitherDir
    osEnv := emptyEnv
    proc := fun _ _ => .completes 0 "" ""
    which := fun _ => .notFound
    smartbert := .unreachable "connection refused"
    sekit := .unreachable }

/-- An argument bag for `run_security_tool` that names a tool but omits
the (schema-required) `arguments` key entirely. -/
def argsNoArguments : Args :=
  fun k => if k = "tool_name" then some (.str "slither") else none

/-- C4 counterexample: with the schema-required `arguments` key absent,
`run_security_tool` does not return a text error and does not abort
before I/O — it resolves the tool, probes the filesystem, and spawns a
subprocess (the missing argument silently defaults to the empty
string). -/
theorem run_security_tool_ignores_missing_arguments :
    argsNoArguments "arguments" = none
    ∧ (call_tool worldQuickProc "run_security_tool" argsNoArguments).2 =
        [Effect.resolverRun "slither",
         Effect.fsProbe (TOOLS_DIR ++ "/slither"),
         Effect.spawn "python3 slither/slither.py" (TOOLS_DIR ++ "/slither")
           "~/tools:~/tools/web3se-lab:"]
    ∧ (call_tool worldQuickProc "run_security_tool" argsNoArguments).1 ≠
        ["Error: No tool name provided. Supported tools: slither, mythril, " ++
          "echidna, securify2, medusa, fuzz-utils, solc-select"] := by
  refine ⟨rfl, by decide, by decide⟩

/-! ## C1: timeout semantics -/

theorem find_tool_lowered_ne_empty (w : World) (args : Args)
    (info : ToolInfo)
    (h : find_tool_executable w.fs (strToLower (argStr args "tool_name" "")) =
      some info) :
    strToLower (argStr args "tool_name" "") ≠ "" := by
  intro he
  rw [he, show find_tool_executable w.fs "" = none from rfl] at h
  cases h

/-- C1: whenever the spawned subprocess of `execute_command` or
`run_security_tool` fails to complete within the timeout, the process is
killed and then reaped, and the operation returns exactly the fixed
timeout report naming the timeout bound and the original command — a
report independent of (and containing none of) the partial stdout and
stderr the child may have produced. -/
theorem timeout_kills_reaps_and_reports :
    (∀ (w : World) (args : Args) (po pe : String),
      argStr args "command" "" ≠ "" →
      w.fs.pathExists (argStr args "working_directory" ".") = true →
      w.proc (argStr args "command" "")
        (argStr args "working_directory" ".") = .hangs po pe →
      ∃ pv, call_tool w "execute_command" args =
        (["Error: Command timed out after " ++
            toString (argInt args "timeout" 300) ++ " seconds\nCommand: " ++
            argStr args "command" ""],
         [Effect.fsProbe (argStr args "working_directory" "."),
          Effect.spawn (argStr args "command" "")
            (argStr args "working_directory" ".") pv,
          Effect.killProc, Effect.reapProc]))
    ∧ (∀ (w : World) (args : Args) (info : ToolInfo) (po pe : String),
      find_tool_executable w.fs (strToLower (argStr args "tool_name" "")) =
        some info →
      w.proc (pyStrip (info.command ++ " " ++ argStr args "arguments" ""))
        info.cwd = .hangs po pe →
      ∃ pv, call_tool w "run_security_tool" args =
        (["Error: Tool execution timed out after " ++
            toString (argInt args "timeout" 300) ++ " seconds\nTool: " ++
            strToLower (argStr args "tool_name" "") ++ "\nCommand: " ++
            pyStrip (info.command ++ " " ++ argStr args "arguments" "")],
         [Effect.resolverRun (strToLower (argStr args "tool_name" "")),
          Effect.fsProbe info.cwd,
          Effect.spawn
            (pyStrip (info.command ++ " " ++ argStr args "arguments" ""))
            info.cwd pv,
          Effect.killProc, Effect.reapProc])) := by
  constructor
  · intro w args po pe h1 h2 h3
    refine ⟨envGetD (call_env (default_env w.osEnv)) "PATH" "", ?_⟩
    have e : call_tool w "execute_command" args = execute_command_op w args :=
      rfl
    rw [e]
    simp [execute_command_op, resolvePath, h1, h2, h3]
  · intro w args info po pe h1 h2
    have hne := find_tool_lowered_ne_empty w args info h1
    have hcwd := find_tool_executable_cwd_exists w.fs _ info h1
    refine ⟨envGetD (call_env (default_env w.osEnv)) "PATH" "", ?_⟩
    have e : call_tool w "run_security_tool" args =
        run_security_tool_op w args := rfl
    rw [e]
    simp only [run_security_tool_op]
    rw [if_neg hne]
    simp only [h1]
    simp [runTool, resolvePath, hcwd, h2]

/-- A world in which every spawned process hangs past its deadline
after producing some partial output on both streams. -/
def worldHang : World :=
  { fs := ⟨fun _ => true, fun _ => true, fun _ => true⟩
    osEnv := emptyEnv
    proc := fun _ _ => .hangs "PARTIAL STDOUT" "PARTIAL STDERR"
    which := fun _ => .notFound
    smartbert := .unreachable "connection refused"
    sekit := .unreachable }

/-- Arguments for a hanging `execute_command`: `sleep 99` under a
1-second timeout. -/
def argsSleep : Args := fun k =>
  if k = "command" then some (.str "sleep 99")
  else if k = "timeout" then some (.int 1)
  else none

/-- Arguments for a hanging `run_security_tool`: slither on `.`. -/
def argsSlitherDot : Args := fun k =>
  if k = "tool_name" then some (.str "slither")
  else if k = "arguments" then some (.str ".")
  else none

theorem timeout_kills_reaps_and_reports_witness :
    (∃ pv, call_tool worldHang "execute_command" argsSleep =
      (["Error: Command timed out after 1 seconds\nCommand: sleep 99"],
       [Effect.fsProbe ".", Effect.spawn "sleep 99" "." pv,
        Effect.killProc, Effect.reapProc]))
    ∧ (∃ pv, call_tool worldHang "run_security_tool" argsSlitherDot =
      (["Error: Tool execution timed out after 300 seconds\nTool: slither" ++
          "\nCommand: python3 slither/slither.py ."],
       [Effect.resolverRun "slither", Effect.fsProbe (TOOLS_DIR ++ "/slither"),
        Effect.spawn "python3 slither/slither.py ." (TOOLS_DIR ++ "/slither")
          pv,
        Effect.killProc, Effect.reapProc])) := by
  constructor
  · have h := timeout_kills_reaps_and_reports.1 worldHang argsSleep
      "PARTIAL STDOUT" "PARTIAL STDERR" (by decide) (by decide) (by decide)
    obtain ⟨pv, hp⟩ := h
    exact ⟨pv, hp.trans (by rfl)⟩
  · have h := timeout_kills_reaps_and_reports.2 worldHang argsSlitherDot
      ⟨"python3 slither/slither.py", TOOLS_DIR ++ "/slither",
        "Slither static analyzer"⟩
      "PARTIAL STDOUT" "PARTIAL STDERR" (by decide) (by decide)
    obtain ⟨pv, hp⟩ := h
    exact ⟨pv, hp.trans (by rfl)⟩

/-! ## C7: scanner flag translation -/

theorem scanCmdParts_eq (s r : String) (wi we : Bool) (o : String) :
    scanCmdParts s r wi we o =
      [s, "scan", r] ++ (if wi then ["--intent"] else []) ++
      (if we then ["--embed"] else []) ++
      (if o ≠ "" then ["--output", o] else []) := by
  simp only [scanCmdParts]
  split_ifs <;> simp

/-- C7: with `repository_path` present and the scanner binary on disk,
the executed command line is exactly the scanner path, `scan`, the
repository path, then `--intent` iff `with_intent` (default true), then
`--embed` iff `with_embed` (default true), then `--output <file>` iff
`output_file` is non-empty, in that order, joined by single spaces. -/
theorem web3_scanner_flag_translation (w : World) (args : Args)
    (repo out : String) (wi we : Bool)
    (hrepo : argStr args "repository_path" "" = repo)
    (hwi : argBool args "with_intent" true = wi)
    (hwe : argBool args "with_embed" true = we)
    (hout : argStr args "output_file" "" = out)
    (h1 : repo ≠ "")
    (h2 : w.fs.pathExists (WEB3SE_LAB_DIR ++ "/web3-scanner") = true) :
    ∃ pv rest, (call_tool w "web3_scanner_scan" args).2 =
      Effect.fsProbe (WEB3SE_LAB_DIR ++ "/web3-scanner") ::
      Effect.spawn
        (String.intercalate " "
          ([WEB3SE_LAB_DIR ++ "/web3-scanner", "scan", repo] ++
           (if wi then ["--intent"] else []) ++
           (if we then ["--embed"] else []) ++
           (if out ≠ "" then ["--output", out] else [])))
        WEB3SE_LAB_DIR pv :: rest := by
  have e : call_tool w "web3_scanner_scan" args = web3_scanner_scan_op w args :=
    rfl
  rw [e]
  simp only [web3_scanner_scan_op, hrepo, hwi, hwe, hout]
  rw [if_neg h1, if_neg (by simp [h2]), ← scanCmdParts_eq]
  cases ho : w.proc
      (String.intercalate " "
        (scanCmdParts (WEB3SE_LAB_DIR ++ "/web3-scanner") repo wi we out))
      WEB3SE_LAB_DIR with
  | completes code outp errp => exact ⟨_, _, rfl⟩
  | hangs po pe => exact ⟨_, _, rfl⟩
  | spawnFails msg => exact ⟨_, _, rfl⟩

/-- Arguments for a scan with intent on, embed off, and an output file. -/
def argsScan : Args := fun k =>
  if k = "repository_path" then some (.str "https://github.com/u/r")
  else if k = "with_embed" then some (.bool false)
  else if k = "output_file" then some (.str "out.json")
  else none

theorem web3_scanner_flag_translation_witness :
    ∃ pv rest, (call_tool worldPermissive "web3_scanner_scan" argsScan).2 =
      Effect.fsProbe (WEB3SE_LAB_DIR ++ "/web3-scanner") ::
      Effect.spawn
        (String.intercalate " "
          ([WEB3SE_LAB_DIR ++ "/web3-scanner", "scan",
            "https://github.com/u/r"] ++ ["--intent"] ++ [] ++
           ["--output", "out.json"]))
        WEB3SE_LAB_DIR pv :: rest := by
  have h := web3_scanner_flag_translation worldPermissive argsScan
    "https://github.com/u/r" "out.json" true false rfl rfl rfl rfl
    (by decide) (by decide)
  simpa using h

/-! ## C8: service status reports all three results -/

/-- The SmartBERT probe URL (line 625). -/
def smartbertUrl (w : World) : String :=
  envGetD (default_env w.osEnv) "SMARTBERT_API" "http://localhost:9900"

/-- The web3-sekit probe URL (line 637). -/
def sekitUrl (w : World) : String :=
  envGetD (default_env w.osEnv) "WEB3_SEKIT_API" "http://localhost:8081"

/-- C8: for every outcome of the two HTTP probes (including raised
probes) and of the scanner-binary check, `check_web3se_status` returns
one report whose lines contain a SmartBERT result, a web3-sekit result
and a scanner-binary result, and it always performs both HTTP probes
and the filesystem check — the failure of one probe never suppresses
the other two results. -/
theorem status_check_reports_all_three (w : World) (args : Args) :
    ∃ lines : List String,
      (call_tool w "check_web3se_status" args).1 =
        ["web3se-lab Service Status:\n" ++ String.intercalate "\n" lines]
      ∧ (("✅ SmartBERT API: Running at " ++ smartbertUrl w) ∈ lines ∨
         ("❌ SmartBERT API: Not running at " ++ smartbertUrl w) ∈ lines)
      ∧ (("✅ web3-sekit API: Running at " ++ sekitUrl w) ∈ lines ∨
         ("❌ web3-sekit API: Not running at " ++ sekitUrl w) ∈ lines)
      ∧ (("✅ web3-scanner CLI: Available at " ++
            (WEB3SE_LAB_DIR ++ "/web3-scanner")) ∈ lines ∨
         ("❌ web3-scanner CLI: Not found at " ++
            (WEB3SE_LAB_DIR ++ "/web3-scanner")) ∈ lines)
      ∧ (call_tool w "check_web3se_status" args).2 =
          [Effect.httpGet (smartbertUrl w), Effect.httpGet (sekitUrl w),
           Effect.fsProbe (WEB3SE_LAB_DIR ++ "/web3-scanner")] := by
  have e : call_tool w "check_web3se_status" args = check_web3se_status_op w :=
    rfl
  rw [e]
  simp only [check_web3se_status_op]
  cases hsb : w.smartbert <;> cases hsk : w.sekit <;>
    cases hsc : w.fs.pathExists (WEB3SE_LAB_DIR ++ "/web3-scanner") <;>
    exact ⟨_, rfl, by simp [smartbertUrl], by simp [sekitUrl], by simp, rfl⟩

/-! ## C9: run_security_tool uses the install directory -/

theorem setArg_other (a : Args) (k k' : String) (v : ArgVal) (h : k' ≠ k) :
    setArg a k v k' = a k' := by
  simp [setArg, h]

theorem runTool_wd_irrelevant (w : World) (info : ToolInfo)
    (tn ta : String) (t : Int) (effs0 : List Effect)
    (h : w.fs.pathExists info.cwd = true) (v₁ v₂ : String) :
    runTool w info tn ta v₁ t effs0 = runTool w info tn ta v₂ t effs0 := by
  simp [runTool, resolvePath, h]

/-- C9: when resolution succeeds, `run_security_tool` launches the
subprocess with working directory equal to the tool's installation
directory; the caller-supplied `working_directory` argument has no
effect on the result; and the operation never produces a
`DirectoryNotFound` report for it. -/
theorem run_tool_install_dir_ignores_working_directory (w : World)
    (args : Args) (info : ToolInfo)
    (h1 : find_tool_executable w.fs (strToLower (argStr args "tool_name" "")) =
      some info) :
    (∀ c d p, Effect.spawn c d p ∈ (call_tool w "run_security_tool" args).2 →
      d = info.cwd)
    ∧ (∀ v₁ v₂ : String,
        call_tool w "run_security_tool"
          (setArg args "working_directory" (.str v₁)) =
        call_tool w "run_security_tool"
          (setArg args "working_directory" (.str v₂)))
    ∧ (∀ t ∈ (call_tool w "run_security_tool" args).1, ∀ s : String,
        t ≠ "Error: Working directory does not exist: " ++ s) := by
  have hne := find_tool_lowered_ne_empty w args info h1
  have hcwd := find_tool_executable_cwd_exists w.fs _ info h1
  have e : call_tool w "run_security_tool" args = run_security_tool_op w args :=
    rfl
  refine ⟨?_, ?_, ?_⟩
  · intro c d p hmem
    rw [e] at hmem
    simp only [run_security_tool_op] at hmem
    rw [if_neg hne] at hmem
    simp only [h1] at hmem
    simp only [runTool, resolvePath, hcwd, if_true] at hmem
    split at hmem <;> simp at hmem <;> simp_all
  · intro v₁ v₂
    have hTn : ∀ v : ArgVal,
        argStr (setArg args "working_directory" v) "tool_name" "" =
          argStr args "tool_name" "" := fun v => by
      rw [argStr, setArg_other args "working_directory" "tool_name" v
        (by decide)]
      rfl
    have hTa : ∀ v : ArgVal,
        argStr (setArg args "working_directory" v) "arguments" "" =
          argStr args "arguments" "" := fun v => by
      rw [argStr, setArg_other args "working_directory" "arguments" v
        (by decide)]
      rfl
    have hTo : ∀ v : ArgVal,
        argInt (setArg args "working_directory" v) "timeout" 300 =
          argInt args "timeout" 300 := fun v => by
      rw [argInt, setArg_other args "working_directory" "timeout" v
        (by decide)]
      rfl
    have e₁ : call_tool w "run_security_tool"
        (setArg args "working_directory" (.str v₁)) =
        run_security_tool_op w (setArg args "working_directory" (.str v₁)) :=
      rfl
    have e₂ : call_tool w "run_security_tool"
        (setArg args "working_directory" (.str v₂)) =
        run_security_tool_op w (setArg args "working_directory" (.str v₂)) :=
      rfl
    rw [e₁, e₂]
    simp only [run_security_tool_op, hTn, hTa, hTo]
    rw [if_neg hne, if_neg hne]
    simp only [h1]
    exact runTool_wd_irrelevant w info _ _ _ _ hcwd _ _
  · intro t ht s
    rw [e] at ht
    simp only [run_security_tool_op] at ht
    rw [if_neg hne] at ht
    simp only [h1] at ht
    simp only [runTool, resolvePath, hcwd, if_true] at ht
    have keyTimeout : ∀ x y : String,
        ("Error: Tool execution timed out after " ++ x) ≠
          ("Error: Working directory does not exist: " ++ y) := fun x y =>
      append_ne_of_not_prefixes _ _ x y (by decide) (by decide)
    have keyFail : ∀ x y : String,
        ("Error running security tool: " ++ x) ≠
          ("Error: Working directory does not exist: " ++ y) := fun x y =>
      append_ne_of_not_prefixes _ _ x y (by decide) (by decide)
    have keyReport : ∀ x y : String,
        ("Security Tool Execution: " ++ x) ≠
          ("Error: Working directory does not exist: " ++ y) := fun x y =>
      append_ne_of_not_prefixes _ _ x y (by decide) (by decide)
    split at ht <;> simp only [List.mem_singleton] at ht <;> subst ht
    · intro he
      simp only [String.append_assoc] at he
      exact keyFail _ s he
    · intro he
      simp only [String.append_assoc] at he
      exact keyTimeout _ s he
    · intro he
      simp only [securityReport, String.append_assoc] at he
      exact keyReport _ s he

/-- Arguments for `run_security_tool` carrying an explicit (ignored)
working directory. -/
def argsSlitherWd : Args := fun k =>
  if k = "tool_name" then some (.str "slither")
  else if k = "arguments" then some (.str ".")
  else if k = "working_directory" then some (.str "/nonexistent/path")
  else none

theorem run_tool_install_dir_ignores_working_directory_witness :
    call_tool worldQuickProc "run_security_tool"
      (setArg argsSlitherWd "working_directory" (.str "/alpha")) =
    call_tool worldQuickProc "run_security_tool"
      (setArg argsSlitherWd "working_directory" (.str "/beta")) :=
  (run_tool_install_dir_ignores_working_directory worldQuickProc argsSlitherWd
    ⟨"python3 slither/slither.py", TOOLS_DIR ++ "/slither",
      "Slither static analyzer"⟩ (by decide)).2.1 "/alpha" "/beta"

example : tool_configs "" = none := rfl

example : replaceDots "slither/slither.py" = "slither/slither/py" := rfl

example : pySplit "python3 -m securify" = ["python3", "-m", "securify"] := rfl

example : pyStrip "python3 slither/slither.py " = "python3 slither/slither.py" := rfl

example : strContainsSub "python3 -m securify" "python3" = true := rfl
